import Mathlib

/-!
Verification development for the np_data_validation repository.

The definitions below are a shallow embedding of `data_validation.py` and
`strategies.py`:

* `Match` embeds `DataValidationFile.Match` (an `enum.IntFlag` in the source);
  the named tuples `SELVES`, `VALID_COPIES`, `UNCONFIRMED_COPIES`,
  `INVALID_COPIES`, `IGNORED` are embedded as lists.
* `DVFile` embeds the fields of a `DataValidationFile` object that the
  comparison engine and the backup-status logic read: the posix path string,
  the file name, the optional size, the optional checksum tagged with its
  algorithm name, the probe (subgroup) tag, and the session/backup-location
  data used by `DataValidationStatus`.
* `compare` embeds `DataValidationFile.compare` (the if/elif decision tree).
  The source consults the filesystem inside `compare` (a best-effort
  `pathlib.Path.samefile` check that yields `True`, `False`, or `None` when a
  file is missing or an `OSError` occurs); that observation is made an
  explicit `Option Bool` argument.  Python `hash(self) == hash(other)` (an
  xor of the hashes of checksum, size and lower-cased posix path) is embedded
  as equality of that triple.  The implicit `return None` that Python takes
  when the invalid-copy branch falls through all of its inner `if`s is
  embedded by making `compare` return `Option Match`.
-/

/-- Embedding of the `DataValidationFile.Match` enum members. -/
inductive Match where
  | UNRELATED
  | UNKNOWN
  | UNKNOWN_CHECKSUM_TYPE_MISMATCH
  | CHECKSUM_COLLISION
  | SELF_PREVIOUS_VERSION
  | SELF
  | SELF_MISSING_SELF
  | SELF_MISSING_OTHER
  | SELF_CHECKSUM_TYPE_MISMATCH
  | POSSIBLE_COPY_RENAMED
  | COPY_UNSYNCED_CHECKSUM
  | COPY_UNSYNCED_OR_CORRUPT_DATA
  | COPY_UNSYNCED_DATA
  | COPY_MISSING_BOTH
  | COPY_MISSING_SELF
  | COPY_MISSING_OTHER
  | COPY_CHECKSUM_TYPE_MISMATCH
  | VALID_COPY
  | VALID_COPY_RENAMED
deriving DecidableEq

/-- Embeds `DataValidationFile.SELVES`. -/
def SELVES : List Match :=
  [.SELF, .SELF_MISSING_SELF, .SELF_MISSING_OTHER, .SELF_CHECKSUM_TYPE_MISMATCH]

/-- Embeds `DataValidationFile.VALID_COPIES`. -/
def VALID_COPIES : List Match := [.VALID_COPY, .VALID_COPY_RENAMED]

/-- Embeds `DataValidationFile.UNCONFIRMED_COPIES`. -/
def UNCONFIRMED_COPIES : List Match :=
  [.COPY_MISSING_BOTH, .COPY_MISSING_SELF, .COPY_MISSING_OTHER,
   .COPY_CHECKSUM_TYPE_MISMATCH, .POSSIBLE_COPY_RENAMED]

/-- Embeds `DataValidationFile.INVALID_COPIES`. -/
def INVALID_COPIES : List Match :=
  [.COPY_UNSYNCED_CHECKSUM, .COPY_UNSYNCED_OR_CORRUPT_DATA, .COPY_UNSYNCED_DATA]

/-- Embeds `DataValidationFile.IGNORED`. -/
def IGNORED : List Match :=
  [.UNRELATED, .UNKNOWN, .UNKNOWN_CHECKSUM_TYPE_MISMATCH, .CHECKSUM_COLLISION,
   .SELF_PREVIOUS_VERSION]

/-- Fields of a `DataValidationFile` object read by the comparison engine and
by `DataValidationStatus`.  `path` is the posix path string (`path.as_posix()`),
`name` is `path.name`, `checksum` is `None` or the checksum string,
`checksumName` is the class attribute `checksum_name`, `probeDir` the parsed
probe tag, `size` the optional byte count.  `sessionId` is `session.id` for
`SessionFile` instances (`none` embeds `OrphanedDVFile` / non-session files),
`onLims` / `onNpexp` embed `b.session.lims_path in b.path.parents` /
`b.session.npexp_path in b.path.parents`, and `cls` records the concrete
DVFile class (used for the `isinstance(s, dest_file.__class__)` test). -/
structure DVFile where
  path : String
  name : String
  checksum : Option String
  checksumName : String
  size : Option Nat
  probeDir : Option String
  sessionId : Option String := none
  onLims : Bool := false
  onNpexp : Bool := false
  cls : String := ""
deriving DecidableEq

/-- Lower-casing used by the source's `.lower()` calls on paths and names. -/
def sLower (s : String) : String := String.mk (s.data.map Char.toLower)

/-- Atomic boolean conditions of one `DataValidationFile.compare(self, other)`
call.  `aCk`/`bCk` are the Python truthiness of `self.checksum` /
`other.checksum`; `sT`/`sF` are `samefile is True` / `samefile is False`;
`anbc` is the final else-branch test `self.checksum_name != other.checksum`
(which compares the algorithm name of `self` with the checksum *value* of
`other`, exactly as the source does). -/
structure CmpCtx where
  pEq : Bool
  szEq : Bool
  nmEq : Bool
  prEq : Bool
  cnEq : Bool
  ckEq : Bool
  aCk : Bool
  bCk : Bool
  sT : Bool
  sF : Bool
  anbc : Bool

/-- Atomic conditions of `compare(a, b)` with samefile observation `s`. -/
def mkCtx (a b : DVFile) (s : Option Bool) : CmpCtx where
  pEq := decide (sLower a.path = sLower b.path)
  szEq := decide (a.size = b.size)
  nmEq := decide (sLower a.name = sLower b.name)
  prEq := decide (a.probeDir = b.probeDir)
  cnEq := decide (a.checksumName = b.checksumName)
  ckEq := decide (a.checksum = b.checksum)
  aCk := a.checksum.isSome
  bCk := b.checksum.isSome
  sT := decide (s = some true)
  sF := decide (s = some false)
  anbc := decide (b.checksum ≠ some a.checksumName)

/-- The `DataValidationFile.compare` if/elif decision tree, written over the
atomic conditions of one call.  Branches appear in source order:
SELF (object identity / hash equality / checksum+size+path agreement), the
two order-dependent SELF_MISSING cases, SELF_CHECKSUM_TYPE_MISMATCH,
SELF_PREVIOUS_VERSION, the four checksum-incomplete copy cases,
POSSIBLE_COPY_RENAMED, the two valid-copy cases, the invalid-copy branch with
its three inner cases (whose fall-through is Python's implicit `return None`),
CHECKSUM_COLLISION, UNRELATED, and the final else returning
UNKNOWN_CHECKSUM_TYPE_MISMATCH or UNKNOWN. -/
def compareCore (c : CmpCtx) : Option Match :=
  if (c.ckEq && c.szEq && c.pEq)
      || (c.aCk && c.bCk && c.ckEq && c.szEq && (c.pEq || c.sT) && !c.sF) then
    some .SELF
  else if c.szEq && (c.pEq || c.sT) && !c.aCk && c.bCk && !c.sF then
    some .SELF_MISSING_SELF
  else if c.szEq && (c.pEq || c.sT) && c.aCk && !c.bCk && !c.sF then
    some .SELF_MISSING_OTHER
  else if c.szEq && (c.pEq || c.sT) && (c.aCk && c.bCk) && !c.cnEq && !c.sF then
    some .SELF_CHECKSUM_TYPE_MISMATCH
  else if (!c.szEq || (!c.ckEq && c.cnEq)) && (c.pEq || c.sT) && !c.sF then
    some .SELF_PREVIOUS_VERSION
  else if (!c.aCk && !c.bCk) && c.szEq && c.nmEq && !c.pEq && c.prEq && !c.sT then
    some .COPY_MISSING_BOTH
  else if (c.aCk && !c.bCk) && c.szEq && c.nmEq && !c.pEq && c.prEq && !c.sT then
    some .COPY_MISSING_OTHER
  else if (!c.aCk && c.bCk) && c.szEq && c.nmEq && !c.pEq && c.prEq && !c.sT then
    some .COPY_MISSING_SELF
  else if (c.aCk && c.bCk) && !c.cnEq && c.szEq && c.nmEq && !c.pEq && c.prEq
      && !c.sT then
    some .COPY_CHECKSUM_TYPE_MISMATCH
  else if ((!c.aCk || !c.bCk) || !c.cnEq) && c.szEq && !c.nmEq && !c.pEq
      && c.prEq && !c.sT then
    some .POSSIBLE_COPY_RENAMED
  else if (c.aCk && c.bCk) && c.ckEq && c.szEq && c.nmEq && !c.pEq && c.prEq
      && !c.sT then
    some .VALID_COPY
  else if c.aCk && c.bCk && c.ckEq && c.szEq && !c.nmEq && !c.pEq && c.prEq
      && !c.sT then
    some .VALID_COPY_RENAMED
  else if (c.aCk && c.bCk) && c.cnEq && c.nmEq && !c.pEq && c.prEq && !c.sT then
    if !c.szEq && !c.ckEq && c.prEq then some .COPY_UNSYNCED_DATA
    else if !c.szEq && c.ckEq && c.prEq then some .COPY_UNSYNCED_CHECKSUM
    else if c.szEq && !c.ckEq && c.prEq then some .COPY_UNSYNCED_OR_CORRUPT_DATA
    else none
  else if c.aCk && c.bCk && c.cnEq && c.ckEq && !c.szEq && !c.nmEq && !c.sT then
    some .CHECKSUM_COLLISION
  else if c.aCk && c.bCk && !c.ckEq && !c.szEq && !c.nmEq && c.cnEq && !c.sT then
    some .UNRELATED
  else if c.anbc then some .UNKNOWN_CHECKSUM_TYPE_MISMATCH
  else some .UNKNOWN

/-- Embeds `DataValidationFile.compare(a, b)` given the samefile observation
`s` (the filesystem-dependent local variable of the source). -/
def DVFile.compare (a b : DVFile) (s : Option Bool) : Option Match :=
  compareCore (mkCtx a b s)

/-- Membership of a comparison result in one of the named Match tuples; a
`None` result is in no tuple, as in Python. -/
def inSet (r : Option Match) (ms : List Match) : Bool :=
  match r with
  | none => false
  | some m => decide (m ∈ ms)

/-- Embeds `valid_crc32_checksum`: 8 characters, hex digits (case-insensitive
via `.upper()`). -/
def validCrc32 (v : String) : Bool :=
  v.length = 8 && v.data.all (fun ch => (Char.toUpper ch) ∈ "0123456789ABCDEF".data)

/-- Embeds `valid_sha256_checksum` (also used by `SHA3_256DataValidationFile`):
64 characters, hex digits (case-insensitive via `.lower()`). -/
def validSha256 (v : String) : Bool :=
  v.length = 64 && v.data.all (fun ch => (Char.toLower ch) ∈ "0123456789abcdef".data)

/-- The checksum algorithm names registered in `available_DVFiles`. -/
def algNames : List String := ["sha3_256", "sha256", "crc32"]

/-- Format-validation function attached to each algorithm name:
`crc32` uses `valid_crc32_checksum`, `sha256` and `sha3_256` both use
`valid_sha256_checksum`. -/
def checksumFormatValid (nm v : String) : Bool :=
  if nm = "crc32" then validCrc32 v else validSha256 v

/-- Well-formedness of a record, as guaranteed by `DataValidationFile.__init__`
(the constructor rejects any checksum that fails its algorithm's
format-validation function) for the three registered algorithm classes. -/
def WFb (f : DVFile) : Bool :=
  decide (f.checksumName ∈ algNames) &&
    (match f.checksum with
     | none => true
     | some c => checksumFormatValid f.checksumName c)

/-- Name-equivalent classification under operand swap: the two order-dependent
SELF_MISSING kinds exchange, the two COPY_MISSING kinds exchange, and every
other kind is unchanged. -/
def swapMatch : Match → Match
  | .SELF_MISSING_SELF => .SELF_MISSING_OTHER
  | .SELF_MISSING_OTHER => .SELF_MISSING_SELF
  | .COPY_MISSING_SELF => .COPY_MISSING_OTHER
  | .COPY_MISSING_OTHER => .COPY_MISSING_SELF
  | m => m

theorem decideEqSymm {α : Type} [DecidableEq α] (x y : α) :
    decide (x = y) = decide (y = x) := by
  simp only [decide_eq_decide]
  exact eq_comm

/-- No format-valid checksum string equals any registered algorithm name. -/
theorem checksum_ne_algName {na nb c : String} (hna : na ∈ algNames)
    (hnb : nb ∈ algNames) (hv : checksumFormatValid nb c = true) : c ≠ na := by
  intro h
  subst h
  simp only [algNames, List.mem_cons, List.not_mem_nil, or_false] at hna hnb
  rcases hna with h1 | h1 | h1 <;> rcases hnb with h2 | h2 | h2 <;>
    subst h1 <;> subst h2 <;> revert hv <;> decide

/-- For well-formed records the final else-branch test
`self.checksum_name != other.checksum` is always true. -/
theorem wf_ck_ne_name {a b : DVFile} (ha : WFb a = true) (hb : WFb b = true) :
    decide (b.checksum ≠ some a.checksumName) = true := by
  rw [decide_eq_true_eq]
  cases hc : b.checksum with
  | none => simp
  | some c =>
    simp only [Ne, Option.some.injEq]
    intro h
    unfold WFb at ha hb
    rw [hc] at hb
    rw [Bool.and_eq_true, decide_eq_true_eq] at ha hb
    exact checksum_ne_algName ha.1 hb.1 hb.2 h

set_option maxHeartbeats 1000000 in
/-- Swapping the operand slots (and fixing the else-branch test to true, as it
is for well-formed records) turns the decision tree's answer into its
name-equivalent classification. -/
theorem compareCore_swap (p sz nm pr cn ck ak bk st sf : Bool) :
    compareCore ⟨p, sz, nm, pr, cn, ck, bk, ak, st, sf, true⟩ =
      (compareCore ⟨p, sz, nm, pr, cn, ck, ak, bk, st, sf, true⟩).map swapMatch := by
  revert p sz nm pr cn ck ak bk st sf
  decide

/-- C2.  For every pair of (well-formed) file records, swapping the operands of
`DataValidationFile.compare` yields the name-equivalent classification: the
order-dependent SELF_MISSING_SELF/SELF_MISSING_OTHER pair exchanges (likewise
COPY_MISSING_SELF/COPY_MISSING_OTHER), and every other MatchKind is
unchanged. -/
theorem C2_compare_swap_bounded_asymmetry (a b : DVFile) (s : Option Bool)
    (ha : WFb a = true) (hb : WFb b = true) :
    DVFile.compare b a s = (DVFile.compare a b s).map swapMatch := by
  have hab := wf_ck_ne_name ha hb
  have hba := wf_ck_ne_name hb ha
  unfold DVFile.compare
  have h1 : mkCtx b a s =
      ⟨(mkCtx a b s).pEq, (mkCtx a b s).szEq, (mkCtx a b s).nmEq,
       (mkCtx a b s).prEq, (mkCtx a b s).cnEq, (mkCtx a b s).ckEq,
       (mkCtx a b s).bCk, (mkCtx a b s).aCk, (mkCtx a b s).sT,
       (mkCtx a b s).sF, true⟩ := by
    unfold mkCtx
    rw [decideEqSymm (sLower b.path) (sLower a.path),
      decideEqSymm b.size a.size, decideEqSymm (sLower b.name) (sLower a.name),
      decideEqSymm b.probeDir a.probeDir,
      decideEqSymm b.checksumName a.checksumName,
      decideEqSymm b.checksum a.checksum, hba]
  rw [h1]
  have h2 : (mkCtx a b s).anbc = true := hab
  generalize hg : mkCtx a b s = c at h2 ⊢
  obtain ⟨p, sz, nm, pr, cn, ck, ak, bk, st, sf, an⟩ := c
  dsimp only at h2 ⊢
  subst h2
  exact compareCore_swap p sz nm pr cn ck ak bk st sf

/-- Concrete well-formed records witnessing C2. -/
def c2wA : DVFile :=
  { path := "/orig/x.bin", name := "x.bin", checksum := none,
    checksumName := "crc32", size := some 100, probeDir := none }

/-- Concrete well-formed records witnessing C2. -/
def c2wB : DVFile :=
  { path := "/backup/x.bin", name := "x.bin", checksum := some "AAAAAAAA",
    checksumName := "crc32", size := some 100, probeDir := none }

/-- Witness for C2 at a concrete input where the two directions really do
exchange COPY_MISSING_SELF and COPY_MISSING_OTHER. -/
theorem C2_witness :
    WFb c2wA = true ∧ WFb c2wB = true ∧
      DVFile.compare c2wB c2wA none = (DVFile.compare c2wA c2wB none).map swapMatch ∧
      DVFile.compare c2wA c2wB none = some Match.COPY_MISSING_SELF ∧
      DVFile.compare c2wB c2wA none = some Match.COPY_MISSING_OTHER :=
  ⟨by decide, by decide,
   C2_compare_swap_bounded_asymmetry c2wA c2wB none (by decide) (by decide),
   by decide, by decide⟩

/-- Record used in the C3 counterexample (source side). -/
def c3A : DVFile :=
  { path := "/orig/x.bin", name := "x.bin", checksum := some "AAAAAAAA",
    checksumName := "crc32", size := some 100, probeDir := none }

/-- Record used in the C3 counterexample (backup side). -/
def c3B : DVFile :=
  { path := "/backup/x.bin", name := "x.bin", checksum := some "AAAAAAAA",
    checksumName := "crc32", size := some 100, probeDir := none }

/-- C3 counterexample: with the two records' fields unchanged, the result of
`DataValidationFile.compare` flips between SELF and VALID_COPY depending on
the filesystem-dependent `samefile` observation (the source consults
`path.exists()` / `path.samefile()` inside `compare`), so the classification
is not a function of the records' fields alone. -/
theorem C3_counterexample :
    DVFile.compare c3A c3B (some true) = some Match.SELF ∧
    DVFile.compare c3A c3B none = some Match.VALID_COPY ∧
    some Match.SELF ≠ some Match.VALID_COPY := by
  decide

/-- C3 (amended).  `DataValidationFile.compare` is deterministic as a function
of the two records' compared fields (path, name, size, checksum, checksum
algorithm name, subgroup tag) *together with* the samefile filesystem
observation: any two calls agreeing on those inputs return the identical
MatchKind. -/
theorem C3_determinism_given_observation (a a' b b' : DVFile) (s : Option Bool)
    (hap : a.path = a'.path) (han : a.name = a'.name)
    (hac : a.checksum = a'.checksum) (hacn : a.checksumName = a'.checksumName)
    (has : a.size = a'.size) (hapr : a.probeDir = a'.probeDir)
    (hbp : b.path = b'.path) (hbn : b.name = b'.name)
    (hbc : b.checksum = b'.checksum) (hbcn : b.checksumName = b'.checksumName)
    (hbs : b.size = b'.size) (hbpr : b.probeDir = b'.probeDir) :
    DVFile.compare a b s = DVFile.compare a' b' s := by
  unfold DVFile.compare mkCtx
  rw [hap, han, hac, hacn, has, hapr, hbp, hbn, hbc, hbcn, hbs, hbpr]

/-- Variant of `c3A` differing only in fields `compare` does not read. -/
def c3A' : DVFile :=
  { path := "/orig/x.bin", name := "x.bin", checksum := some "AAAAAAAA",
    checksumName := "crc32", size := some 100, probeDir := none,
    sessionId := some "1234567890_366122_20220618", cls := "crc32" }

/-- Witness for the amended C3 at a concrete input. -/
theorem C3_witness :
    DVFile.compare c3A c3B none = DVFile.compare c3A' c3B none :=
  C3_determinism_given_observation c3A c3A' c3B c3B none rfl rfl rfl rfl rfl rfl
    rfl rfl rfl rfl rfl rfl

/-- Record used in the C5 counterexample: probe-A side. -/
def c5A : DVFile :=
  { path := "/sess/x_probeA/continuous.dat", name := "continuous.dat",
    checksum := some "AAAAAAAA", checksumName := "crc32", size := some 100,
    probeDir := some "A" }

/-- Record used in the C5 counterexample: probe-B side. -/
def c5B : DVFile :=
  { path := "/sess/x_probeB/continuous.dat", name := "continuous.dat",
    checksum := some "BBBBBBBB", checksumName := "crc32", size := some 100,
    probeDir := some "B" }

/-- C5 counterexample: two records satisfying every condition of the claim
(different locations, same case-insensitive name, same algorithm, both
checksums present and disagreeing) but with different probe tags are
classified UNKNOWN_CHECKSUM_TYPE_MISMATCH, not one of the three unsynced
kinds: the source's invalid-copy branch additionally requires
`self.probe_dir == other.probe_dir`. -/
theorem C5_counterexample :
    sLower c5A.path ≠ sLower c5B.path ∧ sLower c5A.name = sLower c5B.name ∧
    c5A.checksumName = c5B.checksumName ∧ c5A.checksum.isSome = true ∧
    c5B.checksum.isSome = true ∧ c5A.size = c5B.size ∧
    c5A.checksum ≠ c5B.checksum ∧
    DVFile.compare c5A c5B none = some Match.UNKNOWN_CHECKSUM_TYPE_MISMATCH ∧
    DVFile.compare c5A c5B none ∉
      [some Match.COPY_UNSYNCED_DATA, some Match.COPY_UNSYNCED_CHECKSUM,
       some Match.COPY_UNSYNCED_OR_CORRUPT_DATA] := by
  decide

/-- C5 (amended).  For two records with different locations, the same
case-insensitive name, the same checksum algorithm, *the same subgroup (probe)
tag*, both checksums present but disagreeing with the other record's data, and
not observed to be the same physical file, `compare` returns exactly
COPY_UNSYNCED_DATA when both size and checksum differ, COPY_UNSYNCED_CHECKSUM
when sizes differ but checksums agree, and COPY_UNSYNCED_OR_CORRUPT_DATA when
sizes agree but checksums differ. -/
theorem C5_unsynced_split (a b : DVFile) (s : Option Bool)
    (hack : a.checksum.isSome = true) (hbck : b.checksum.isSome = true)
    (hcn : a.checksumName = b.checksumName)
    (hnm : sLower a.name = sLower b.name)
    (hp : sLower a.path ≠ sLower b.path)
    (hpr : a.probeDir = b.probeDir)
    (hsT : s ≠ some true) :
    (a.size ≠ b.size → a.checksum ≠ b.checksum →
      DVFile.compare a b s = some Match.COPY_UNSYNCED_DATA) ∧
    (a.size ≠ b.size → a.checksum = b.checksum →
      DVFile.compare a b s = some Match.COPY_UNSYNCED_CHECKSUM) ∧
    (a.size = b.size → a.checksum ≠ b.checksum →
      DVFile.compare a b s = some Match.COPY_UNSYNCED_OR_CORRUPT_DATA) := by
  have h1 : decide (sLower a.path = sLower b.path) = false := decide_eq_false hp
  have h2 : decide (sLower a.name = sLower b.name) = true := decide_eq_true hnm
  have h3 : decide (a.checksumName = b.checksumName) = true := decide_eq_true hcn
  have h4 : decide (a.probeDir = b.probeDir) = true := decide_eq_true hpr
  have h5 : decide (s = some true) = false := decide_eq_false hsT
  refine ⟨fun hsz hck => ?_, fun hsz hck => ?_, fun hsz hck => ?_⟩ <;>
    first
    | (have h6 : decide (a.size = b.size) = false := decide_eq_false hsz
       have h7 : decide (a.checksum = b.checksum) = false := decide_eq_false hck
       simp [DVFile.compare, mkCtx, compareCore, h1, h2, h3, h4, h5, h6, h7,
         hack, hbck])
    | (have h6 : decide (a.size = b.size) = false := decide_eq_false hsz
       have h7 : decide (a.checksum = b.checksum) = true := decide_eq_true hck
       simp [DVFile.compare, mkCtx, compareCore, h1, h2, h3, h4, h5, h6, h7,
         hack, hbck])
    | (have h6 : decide (a.size = b.size) = true := decide_eq_true hsz
       have h7 : decide (a.checksum = b.checksum) = false := decide_eq_false hck
       simp [DVFile.compare, mkCtx, compareCore, h1, h2, h3, h4, h5, h6, h7,
         hack, hbck])

/-- Spec scenario C record: source side. -/
def c5wA : DVFile :=
  { path := "/orig/x.bin", name := "x.bin", checksum := some "AA",
    checksumName := "crc32", size := some 100, probeDir := none }

/-- Spec scenario C record: same name, different location, other checksum. -/
def c5wB : DVFile :=
  { path := "/backup/x.bin", name := "x.bin", checksum := some "BB",
    checksumName := "crc32", size := some 100, probeDir := none }

/-- Witness for the amended C5: spec scenario C evaluates to
COPY_UNSYNCED_OR_CORRUPT_DATA. -/
theorem C5_witness :
    DVFile.compare c5wA c5wB none = some Match.COPY_UNSYNCED_OR_CORRUPT_DATA :=
  (C5_unsynced_split c5wA c5wB none (by decide) (by decide) (by decide)
      (by decide) (by decide) (by decide) (by decide)).2.2 (by decide) (by decide)

/-- Embeds the unfiltered branch of `MongoDataValidationDB.get_matches`
(`if not match: return [o for o in matches if file.compare(o) not in
IGNORED]`): candidates whose comparison with the subject lands in `IGNORED`
are dropped.  `obs` supplies the per-candidate samefile observation. -/
def matchesNotIgnored (file : DVFile) (cands : List DVFile)
    (obs : DVFile → Option Bool) : List DVFile :=
  cands.filter fun o => !(inSet (DVFile.compare file o (obs o)) IGNORED)

/-- Record of the C6 counterexample: sha256-tagged side. -/
def c6A : DVFile :=
  { path := "/orig/x.bin", name := "x.bin",
    checksum := some "aaaaaaaaaaaaaaaaaaaaaaaaaaaaaaaaaaaaaaaaaaaaaaaaaaaaaaaaaaaaaaaa",
    checksumName := "sha256", size := some 100, probeDir := none }

/-- Record of the C6 counterexample: sha3_256-tagged side with the identical
checksum string but a different algorithm name. -/
def c6B : DVFile :=
  { path := "/backup/y.bin", name := "y.bin",
    checksum := some "aaaaaaaaaaaaaaaaaaaaaaaaaaaaaaaaaaaaaaaaaaaaaaaaaaaaaaaaaaaaaaaa",
    checksumName := "sha3_256", size := some 200, probeDir := none }

/-- C6 counterexample: two well-formed records with equal present checksums,
different sizes and different names (and not the same physical file) are NOT
classified CHECKSUM_COLLISION when their checksum algorithm names differ
(sha256 vs sha3_256 share the 64-hex format): the source's collision branch
additionally requires `self.checksum_name == other.checksum_name`. -/
theorem C6_counterexample :
    WFb c6A = true ∧ WFb c6B = true ∧
    c6A.checksum.isSome = true ∧ c6A.checksum = c6B.checksum ∧
    c6A.size ≠ c6B.size ∧ sLower c6A.name ≠ sLower c6B.name ∧
    DVFile.compare c6A c6B none = some Match.UNKNOWN_CHECKSUM_TYPE_MISMATCH ∧
    DVFile.compare c6A c6B none ≠ some Match.CHECKSUM_COLLISION := by
  decide

/-- C6 (amended).  For two records with present, equal checksums computed by
*the same algorithm*, different sizes, different case-insensitive names,
different normalized locations, and not observed to be the same physical file,
`compare` returns CHECKSUM_COLLISION; CHECKSUM_COLLISION is in the IGNORED
set, so such a candidate is dropped by the unfiltered `get_matches` return and
excluded from downstream backup evaluation. -/
theorem C6_checksum_collision (a b : DVFile) (s : Option Bool)
    (hack : a.checksum.isSome = true) (hbck : b.checksum.isSome = true)
    (hck : a.checksum = b.checksum) (hcn : a.checksumName = b.checksumName)
    (hsz : a.size ≠ b.size) (hnm : sLower a.name ≠ sLower b.name)
    (hp : sLower a.path ≠ sLower b.path) (hsT : s ≠ some true) :
    DVFile.compare a b s = some Match.CHECKSUM_COLLISION ∧
    Match.CHECKSUM_COLLISION ∈ IGNORED ∧
    ∀ (cands : List DVFile) (obs : DVFile → Option Bool),
      obs b = s → b ∉ matchesNotIgnored a cands obs := by
  have h1 : decide (sLower a.path = sLower b.path) = false := decide_eq_false hp
  have h2 : decide (sLower a.name = sLower b.name) = false := decide_eq_false hnm
  have h3 : decide (a.checksumName = b.checksumName) = true := decide_eq_true hcn
  have h5 : decide (s = some true) = false := decide_eq_false hsT
  have h6 : decide (a.size = b.size) = false := decide_eq_false hsz
  have h7 : decide (a.checksum = b.checksum) = true := decide_eq_true hck
  have hmain : DVFile.compare a b s = some Match.CHECKSUM_COLLISION := by
    simp [DVFile.compare, mkCtx, compareCore, h1, h2, h3, h5, h6, h7, hack, hbck]
  refine ⟨hmain, by decide, fun cands obs hobs hmem => ?_⟩
  rw [matchesNotIgnored, List.mem_filter] at hmem
  rw [hobs, hmain] at hmem
  exact absurd hmem.2 (by decide)

/-- Spec scenario D record: source side. -/
def c6wA : DVFile :=
  { path := "/orig/x.bin", name := "x.bin", checksum := some "AA",
    checksumName := "crc32", size := some 100, probeDir := none }

/-- Spec scenario D record: different name, same checksum, other size. -/
def c6wB : DVFile :=
  { path := "/backup/y.bin", name := "y.bin", checksum := some "AA",
    checksumName := "crc32", size := some 200, probeDir := none }

/-- Witness for the amended C6: spec scenario D evaluates to
CHECKSUM_COLLISION and is dropped by the IGNORED filter. -/
theorem C6_witness :
    DVFile.compare c6wA c6wB none = some Match.CHECKSUM_COLLISION ∧
    c6wB ∉ matchesNotIgnored c6wA [c6wB] (fun _ => none) := by
  have h := C6_checksum_collision c6wA c6wB none (by decide) (by decide)
    (by decide) (by decide) (by decide) (by decide) (by decide) (by decide)
  exact ⟨h.1, h.2.2 [c6wB] (fun _ => none) rfl⟩

/-- Filesystem oracle: `pathEx` embeds `path.exists()`, `samefileObs` embeds
the result of `path.samefile(other)` (`none` embeds an `OSError`). -/
structure FS where
  pathEx : String → Bool
  samefileObs : String → String → Option Bool

/-- The samefile observation `DataValidationFile.compare` computes for a pair
of records: the `samefile` query only runs when both paths exist, and an
`OSError` (as well as a missing file) leaves the observation `None`. -/
def obsOf (fs : FS) (a b : DVFile) : Option Bool :=
  if fs.pathEx a.path && fs.pathEx b.path then fs.samefileObs a.path b.path
  else none

/-- `compare` against the live filesystem. -/
def compareFS (fs : FS) (a b : DVFile) : Option Match :=
  DVFile.compare a b (obsOf fs a b)

/-- State of a `DataValidationStatus` object after construction: the subject
record, the matches fetched from the database, and the backup candidates
assembled by the constructor. -/
structure DVStatus where
  file : DVFile
  dbMatches : List DVFile
  backups : List DVFile

/-- Embeds the `DataValidationStatus.selves` property: the subject plus every
match the subject compares into `SELVES` (Python wraps this in `list(set(..))`
to deduplicate; membership and emptiness are unaffected). -/
def selves (fs : FS) (st : DVStatus) : List DVFile :=
  if st.dbMatches.isEmpty then [st.file]
  else (st.file :: st.dbMatches).filter fun f =>
    inSet (compareFS fs st.file f) SELVES

/-- Embeds the `DataValidationStatus.valid_backups` property: backups some
self record classifies into `VALID_COPIES` and whose path still exists. -/
def validBackups (fs : FS) (st : DVStatus) : List DVFile :=
  st.backups.filter fun b =>
    (selves fs st).any (fun s => inSet (compareFS fs s b) VALID_COPIES) &&
      fs.pathEx b.path

/-- Embeds the `DataValidationStatus.unconfirmed_backups` property. -/
def unconfirmedBackups (fs : FS) (st : DVStatus) : List DVFile :=
  st.backups.filter fun b =>
    (selves fs st).any (fun s => inSet (compareFS fs s b) UNCONFIRMED_COPIES) &&
      fs.pathEx b.path

/-- Embeds the `DataValidationStatus.invalid_backups` property. -/
def invalidBackups (fs : FS) (st : DVStatus) : List DVFile :=
  st.backups.filter fun b =>
    (selves fs st).any (fun s => inSet (compareFS fs s b) INVALID_COPIES) &&
      fs.pathEx b.path

/-- Embeds `DataValidationStatus.valid_lims`: some valid backup is a
`SessionFile` lying under its session's lims path. -/
def validLims (fs : FS) (st : DVStatus) : Bool :=
  (validBackups fs st).any fun b => b.sessionId.isSome && b.onLims

/-- Embeds `DataValidationStatus.valid_npexp`. -/
def validNpexp (fs : FS) (st : DVStatus) : Bool :=
  (validBackups fs st).any fun b => b.sessionId.isSome && b.onNpexp

/-- Embeds the members of the `DataValidationStatus.Backup` enum that
`DataValidationStatus.report` can return. -/
inductive BackupStatus where
  | VALID_ON_LIMS
  | VALID_ON_NPEXP
  | HAS_VALID_BACKUP
  | HAS_UNCONFIRMED_BACKUP
  | HAS_POSSIBLE_UNSYNCED_BACKUP
  | HAS_NO_CHECKSUMS_IN_DB
  | NO_COPIES_IN_DB
  | NO_MATCHES_IN_DB
  | NO_BACKUPS_IN_FILESYSTEM
  | UNKNOWN
deriving DecidableEq

/-- The integer values of the `Backup` enum members (`enum.IntFlag`; the
source compares statuses with `>=` on these values). -/
def BackupStatus.toInt : BackupStatus → Int
  | .VALID_ON_LIMS => 601
  | .VALID_ON_NPEXP => 501
  | .HAS_VALID_BACKUP => 400
  | .HAS_UNCONFIRMED_BACKUP => 300
  | .HAS_POSSIBLE_UNSYNCED_BACKUP => 100
  | .HAS_NO_CHECKSUMS_IN_DB => 5
  | .NO_COPIES_IN_DB => 3
  | .NO_MATCHES_IN_DB => 2
  | .NO_BACKUPS_IN_FILESYSTEM => 1
  | .UNKNOWN => -1

/-- Embeds `DataValidationStatus.report` (the if/elif chain ending at the
unreachable debug print). -/
def report (fs : FS) (st : DVStatus) : BackupStatus :=
  if st.dbMatches.isEmpty then .NO_MATCHES_IN_DB
  else if !((selves fs st).any fun s => st.dbMatches.any fun m =>
      inSet (compareFS fs s m) (VALID_COPIES ++ UNCONFIRMED_COPIES)) then
    .NO_COPIES_IN_DB
  else if st.backups.isEmpty then .NO_BACKUPS_IN_FILESYSTEM
  else if !((selves fs st).any fun s => s.checksum.isSome) then
    .HAS_NO_CHECKSUMS_IN_DB
  else if validLims fs st then .VALID_ON_LIMS
  else if validNpexp fs st then .VALID_ON_NPEXP
  else if !(validBackups fs st).isEmpty then .HAS_VALID_BACKUP
  else if !(unconfirmedBackups fs st).isEmpty &&
      (invalidBackups fs st).isEmpty then .HAS_UNCONFIRMED_BACKUP
  else if !(invalidBackups fs st).isEmpty then .HAS_POSSIBLE_UNSYNCED_BACKUP
  else .UNKNOWN

/-- The final cross-check of `delete_if_valid_backup_in_db`: no checksum of a
self record equals the checksum of one of the valid backups (`not
any(s.checksum == b.checksum for s in status.selves for b in backups)`). -/
def noCkMatch (fs : FS) (st : DVStatus) : Bool :=
  !((selves fs st).any fun s =>
    (validBackups fs st).any fun b => s.checksum == b.checksum)

/-- Embeds `strategies.delete_if_valid_backup_in_db`.  `unlinkPermitted`
encodes whether `subject.path.unlink()` succeeds (`false` embeds the caught
`PermissionError`, after which the function falls through to `return 0`).
`.error ()` embeds the raised `AssertionError`; `.ok (n, d)` returns the
reported bytes freed (`subject.size`, which may be `None`) and whether the
subject file was actually deleted.  The source repeats the identical
condition on both sides of its `or`, embedded literally. -/
def deleteIfValidBackupInDb (fs : FS) (st : DVStatus) (unlinkPermitted : Bool) :
    Except Unit (Option Nat × Bool) :=
  if (report fs st).toInt ≥ BackupStatus.HAS_VALID_BACKUP.toInt then
    if noCkMatch fs st || noCkMatch fs st then .error ()
    else if unlinkPermitted then .ok (st.file.size, true)
    else .ok (some 0, false)
  else .ok (some 0, false)

theorem mem_validBackups_iff (fs : FS) (st : DVStatus) (b : DVFile) :
    b ∈ validBackups fs st ↔
      b ∈ st.backups ∧
        (∃ s ∈ selves fs st, inSet (compareFS fs s b) VALID_COPIES = true) ∧
        fs.pathEx b.path = true := by
  unfold validBackups
  rw [List.mem_filter, Bool.and_eq_true, List.any_eq_true]

set_option maxHeartbeats 2000000 in
theorem report_ge400 (fs : FS) (st : DVStatus)
    (h : (report fs st).toInt ≥ BackupStatus.HAS_VALID_BACKUP.toInt) :
    (report fs st = .VALID_ON_LIMS ∨ report fs st = .VALID_ON_NPEXP ∨
      report fs st = .HAS_VALID_BACKUP) ∧ validBackups fs st ≠ [] := by
  unfold report at h ⊢
  split_ifs at h ⊢ with h1 h2 h3 h4 h5 h6 h7 h8 h9
  · exact absurd h (by decide)
  · exact absurd h (by decide)
  · exact absurd h (by decide)
  · exact absurd h (by decide)
  · refine ⟨Or.inl rfl, ?_⟩
    unfold validLims at h5
    rw [List.any_eq_true] at h5
    obtain ⟨x, hx, -⟩ := h5
    exact List.ne_nil_of_mem hx
  · refine ⟨Or.inr (Or.inl rfl), ?_⟩
    unfold validNpexp at h6
    rw [List.any_eq_true] at h6
    obtain ⟨x, hx, -⟩ := h6
    exact List.ne_nil_of_mem hx
  · refine ⟨Or.inr (Or.inr rfl), ?_⟩
    intro hnil
    rw [hnil] at h7
    simp at h7
  · exact absurd h (by decide)
  · exact absurd h (by decide)
  · exact absurd h (by decide)

set_option maxHeartbeats 2000000 in
theorem report_lt400_of_no_valid (fs : FS) (st : DVStatus)
    (h : validBackups fs st = []) :
    (report fs st).toInt < BackupStatus.HAS_VALID_BACKUP.toInt := by
  unfold report
  split_ifs with h1 h2 h3 h4 h5 h6 h7 h8 h9
  · decide
  · decide
  · decide
  · decide
  · exfalso
    unfold validLims at h5
    rw [h] at h5
    simp at h5
  · exfalso
    unfold validNpexp at h6
    rw [h] at h6
    simp at h6
  · exfalso
    rw [h] at h7
    simp at h7
  · decide
  · decide
  · decide

/-- C1.  The delete-if-valid strategy deletes the subject only when the
evaluated backup status is at least HAS_VALID_BACKUP (that is, VALID_ON_LIMS,
VALID_ON_NPEXP or HAS_VALID_BACKUP), which requires some candidate backup that
a self record classifies into `VALID_COPIES` and whose path exists at the
moment of evaluation; when no such backup exists the subject file is left
untouched and 0 bytes are reported as freed. -/
theorem C1_delete_safety (fs : FS) (st : DVStatus) (up : Bool) :
    (∀ r, deleteIfValidBackupInDb fs st up = .ok (r, true) →
       (report fs st = .VALID_ON_LIMS ∨ report fs st = .VALID_ON_NPEXP ∨
         report fs st = .HAS_VALID_BACKUP) ∧
       (report fs st).toInt ≥ BackupStatus.HAS_VALID_BACKUP.toInt ∧
       ∃ b ∈ st.backups, fs.pathEx b.path = true ∧
         ∃ s ∈ selves fs st, inSet (compareFS fs s b) VALID_COPIES = true) ∧
    ((¬ ∃ b ∈ st.backups, fs.pathEx b.path = true ∧
         ∃ s ∈ selves fs st, inSet (compareFS fs s b) VALID_COPIES = true) →
       deleteIfValidBackupInDb fs st up = .ok (some 0, false)) := by
  constructor
  · intro r hdel
    unfold deleteIfValidBackupInDb at hdel
    by_cases hge : (report fs st).toInt ≥ BackupStatus.HAS_VALID_BACKUP.toInt
    · rw [if_pos hge] at hdel
      by_cases hck : (noCkMatch fs st || noCkMatch fs st) = true
      · rw [if_pos hck] at hdel
        exact absurd hdel (by simp)
      · rw [if_neg hck] at hdel
        by_cases hup : up = true
        · obtain ⟨h3, hnil⟩ := report_ge400 fs st hge
          obtain ⟨b, hb⟩ := List.exists_mem_of_ne_nil _ hnil
          rw [mem_validBackups_iff] at hb
          exact ⟨h3, hge, b, hb.1, hb.2.2, hb.2.1⟩
        · rw [if_neg hup] at hdel
          exact absurd hdel (by simp)
    · rw [if_neg hge] at hdel
      exact absurd hdel (by simp)
  · intro hno
    have hnil : validBackups fs st = [] := by
      cases h : validBackups fs st with
      | nil => rfl
      | cons x xs =>
        exfalso
        apply hno
        have hx : x ∈ validBackups fs st := h ▸ List.mem_cons_self x xs
        rw [mem_validBackups_iff] at hx
        exact ⟨x, hx.1, hx.2.2, hx.2.1⟩
    have hlt := report_lt400_of_no_valid fs st hnil
    unfold deleteIfValidBackupInDb
    rw [if_neg (by omega)]

/-- Subject record of the C1 witness. -/
def c1File : DVFile :=
  { path := "/acq/sess/x.bin", name := "x.bin", checksum := some "AAAAAAAA",
    checksumName := "crc32", size := some 100, probeDir := none }

/-- Backup record of the C1 witness. -/
def c1Back : DVFile :=
  { path := "/backup/sess/x.bin", name := "x.bin", checksum := some "AAAAAAAA",
    checksumName := "crc32", size := some 100, probeDir := none }

/-- Filesystem of the C1 witness: every path exists, distinct paths are
distinct files. -/
def c1FS : FS :=
  { pathEx := fun _ => true, samefileObs := fun _ _ => some false }

/-- Status of the C1 witness. -/
def c1St : DVStatus :=
  { file := c1File, dbMatches := [c1Back], backups := [c1Back] }

/-- Witness for C1: a concrete state in which the strategy deletes, with the
guarantees of the theorem instantiated there. -/
theorem C1_witness :
    (report c1FS c1St = .VALID_ON_LIMS ∨ report c1FS c1St = .VALID_ON_NPEXP ∨
      report c1FS c1St = .HAS_VALID_BACKUP) ∧
    (report c1FS c1St).toInt ≥ BackupStatus.HAS_VALID_BACKUP.toInt ∧
    ∃ b ∈ c1St.backups, c1FS.pathEx b.path = true ∧
      ∃ s ∈ selves c1FS c1St, inSet (compareFS c1FS s b) VALID_COPIES = true :=
  (C1_delete_safety c1FS c1St true).1 (some 100) rfl

/-- A MongoDB document as written by `MongoDataValidationDB.add_file`:
`path`, `checksum`, `type` (the checksum algorithm name), optional `size`,
optional `session_id`, and `hostname`. -/
structure Entry where
  path : String
  checksum : String
  type : String
  size : Option Nat
  session_id : Option String
  hostname : String
deriving DecidableEq

/-- Embeds `collection.replace_one(filter={path, type}, replacement, upsert=
True)` under the collection's unique index on (path, type): the first (hence
only) document matching the key is replaced, and the replacement is inserted
when no document matches. -/
def replaceOneUpsert (p t : String) (repl : Entry) : List Entry → List Entry
  | [] => [repl]
  | e :: rest =>
    if e.path = p ∧ e.type = t then repl :: rest
    else e :: replaceOneUpsert p t repl rest

/-- Embeds `MongoDataValidationDB.add_file` for an already-constructed record:
a record without a checksum is not entered (`return` before any query), and
otherwise the entry keyed on (path, checksum type) is upserted. -/
def addFile (f : DVFile) (hostname : String) (db : List Entry) : List Entry :=
  match f.checksum with
  | none => db
  | some c =>
    replaceOneUpsert f.path f.checksumName
      { path := f.path, checksum := c, type := f.checksumName, size := f.size,
        session_id := f.sessionId, hostname := hostname } db

/-- Number of documents matching the (path, type) key. -/
def countKey (p t : String) (db : List Entry) : Nat :=
  db.countP fun e => decide (e.path = p ∧ e.type = t)

theorem replaceOneUpsert_idem (p t : String) (repl : Entry)
    (hp : repl.path = p) (ht : repl.type = t) (db : List Entry) :
    replaceOneUpsert p t repl (replaceOneUpsert p t repl db) =
      replaceOneUpsert p t repl db := by
  induction db with
  | nil => simp [replaceOneUpsert, hp, ht]
  | cons e rest ih =>
    by_cases h : e.path = p ∧ e.type = t
    · simp [replaceOneUpsert, h, hp, ht]
    · simp only [replaceOneUpsert, if_neg h]
      rw [ih]

theorem replaceOneUpsert_countKey (p t : String) (repl : Entry)
    (hp : repl.path = p) (ht : repl.type = t) (db : List Entry)
    (h : countKey p t db ≤ 1) :
    countKey p t (replaceOneUpsert p t repl db) ≤ 1 := by
  induction db with
  | nil => simp [replaceOneUpsert, countKey, hp, ht]
  | cons e rest ih =>
    by_cases he : e.path = p ∧ e.type = t
    · simp only [replaceOneUpsert, if_pos he]
      unfold countKey at h ⊢
      rw [List.countP_cons] at h ⊢
      have h1 : decide (repl.path = p ∧ repl.type = t) = true := by
        simp [hp, ht]
      have h2 : decide (e.path = p ∧ e.type = t) = true := by simp [he]
      rw [h1]
      rw [h2] at h
      simpa using h
    · simp only [replaceOneUpsert, if_neg he]
      unfold countKey at h ⊢
      rw [List.countP_cons] at h ⊢
      have h2 : decide (e.path = p ∧ e.type = t) = false := by simp [he]
      rw [h2] at h ⊢
      simp only [Bool.false_eq_true, if_false, Nat.add_zero] at h ⊢
      exact ih h

/-- C4.  Adding the same record twice is idempotent: the upsert is keyed on
(path, checksum algorithm name), a second identical `add_file` leaves the
store unchanged, at most one entry exists for that key afterwards (assuming
the store's unique index held before), and any subsequent query — in
particular `get_matches` against an identical subject — sees the same store
whether the record was added once or twice. -/
theorem C4_addFile_idempotent (f : DVFile) (hostname : String)
    (db : List Entry) :
    addFile f hostname (addFile f hostname db) = addFile f hostname db ∧
    (countKey f.path f.checksumName db ≤ 1 →
      countKey f.path f.checksumName (addFile f hostname db) ≤ 1) ∧
    ∀ (query : List Entry → List DVFile),
      query (addFile f hostname (addFile f hostname db)) =
        query (addFile f hostname db) := by
  have hidem : addFile f hostname (addFile f hostname db) =
      addFile f hostname db := by
    cases hc : f.checksum with
    | none => simp only [addFile, hc]
    | some c =>
      simp only [addFile, hc]
      exact replaceOneUpsert_idem f.path f.checksumName _ rfl rfl db
  refine ⟨hidem, ?_, fun query => by rw [hidem]⟩
  intro h
  cases hc : f.checksum with
  | none => simpa only [addFile, hc] using h
  | some c =>
    simp only [addFile, hc]
    exact replaceOneUpsert_countKey f.path f.checksumName _ rfl rfl db h

/-- Record of the C4/C10 witnesses that carries a checksum. -/
def c4File : DVFile :=
  { path := "/acq/sess/x.bin", name := "x.bin", checksum := some "AAAAAAAA",
    checksumName := "crc32", size := some 100, probeDir := none }

/-- Witness for C4 at a concrete store. -/
theorem C4_witness :
    addFile c4File "host" (addFile c4File "host" []) =
        addFile c4File "host" [] ∧
      countKey c4File.path c4File.checksumName (addFile c4File "host" []) ≤ 1 :=
  ⟨(C4_addFile_idempotent c4File "host" []).1,
   (C4_addFile_idempotent c4File "host" []).2.1 (by decide)⟩

/-- C10.  For a record without a checksum `MongoDataValidationDB.add_file`
returns before any database operation: the store is unchanged and no error is
raised (the embedded `addFile` is total and is the identity there). -/
theorem C10_addFile_no_checksum_frame (f : DVFile) (hostname : String)
    (db : List Entry) (h : f.checksum = none) :
    addFile f hostname db = db := by
  simp only [addFile, h]

/-- Record of the C10 witness: no checksum. -/
def c10File : DVFile :=
  { path := "/acq/sess/x.bin", name := "x.bin", checksum := none,
    checksumName := "crc32", size := some 100, probeDir := none }

/-- Witness for C10 at a concrete store. -/
theorem C10_witness :
    addFile c10File "host" (addFile c4File "host" []) =
      addFile c4File "host" [] :=
  C10_addFile_no_checksum_frame c10File "host" _ rfl

/-- Characters accepted by the probe regex alternative `[A-F]+`. -/
def isProbeLetter (c : Char) : Bool := decide ('A' ≤ c ∧ c ≤ 'F')

/-- Characters accepted by the probe regex alternative `[0-5]{1}`. -/
def isProbeDigit (c : Char) : Bool := decide ('0' ≤ c ∧ c ≤ '5')

/-- Greedy run of `[A-F]+`. -/
def takeLetters : List Char → List Char
  | [] => []
  | c :: cs => if isProbeLetter c then c :: takeLetters cs else []

/-- Matching of `_?(([A-F]+)|([0-5]{1}))` at one position (the text after the
lookbehind).  The optional underscore is part of `match[0]`, which is what the
source binds to `probe_name`; with the underscore consumed, the greedy
letter run is preferred over the single digit, and when neither alternative
matches after the underscore the regex backtracks to an empty `_?`, where
`_` itself matches neither alternative. -/
def matchAt : List Char → Option (List Char)
  | [] => none
  | c :: rest =>
    if c = '_' then
      match takeLetters rest with
      | [] =>
        match rest with
        | d :: _ => if isProbeDigit d then some ['_', d] else none
        | [] => none
      | ls => some ('_' :: ls)
    else if isProbeLetter c then some (c :: takeLetters rest)
    else if isProbeDigit c then some [c]
    else none

/-- The lookbehind `(?<=_probe)`: the six characters before the current
position, reversed. -/
def lookbehindOk (seenRev : List Char) : Bool :=
  decide (seenRev.take 6 = ['e', 'b', 'o', 'r', 'p', '_'])

/-- Leftmost search of `re.search(r"(?<=_probe)_?(([A-F]+)|([0-5]{1}))", ...)`:
positions are tried left to right, matching only where the lookbehind holds. -/
def probeSearchAux : List Char → List Char → Option (List Char)
  | _, [] => none
  | seenRev, c :: rest =>
    if lookbehindOk seenRev then
      match matchAt (c :: rest) with
      | some m => some m
      | none => probeSearchAux (c :: seenRev) rest
    else probeSearchAux (c :: seenRev) rest

/-- The `re.search` of the probe regex over a string. -/
def probeSearch (s : String) : Option (List Char) :=
  probeSearchAux [] s.data

/-- The `AssertionError` raised when the matched probe name fails the
source's assertions. -/
inductive ProbeErr where
  | assertFail
deriving DecidableEq

deriving instance DecidableEq for Except

/-- The digit-to-letter conversion `chr(ord("A") + int(probe_name))`. -/
def probeLetterOfDigit (d : Char) : Char :=
  Char.ofNat ('A'.toNat + (d.toNat - '0'.toNat))

/-- Embeds the probe-name post-processing of `DataValidationFile.__init__`
(lines 894-924): a single-character match that is a digit 0-5 is converted to
the corresponding letter, then asserted to lie in A-F; a longer match must
consist of letters A-F only (an embedded underscore fails the assertion); no
match leaves the probe tag `None`. -/
def parseProbe (s : String) : Except ProbeErr (Option String) :=
  match probeSearch s with
  | none => .ok none
  | some [c] =>
    let c' := if isProbeDigit c then probeLetterOfDigit c else c
    if isProbeLetter c' then .ok (some (String.mk [c'])) else .error .assertFail
  | some m =>
    if m.all isProbeLetter then .ok (some (String.mk m)) else .error .assertFail

/-- C9.  Whenever the probe regex finds a single digit 0-5 after `_probe`,
the derived probe tag is the corresponding capital letter A-F, with 0 mapped
to A, 1 to B, 2 to C, 3 to D, 4 to E and 5 to F. -/
theorem C9_probe_digit_normalization (s : String) (c : Char)
    (h : probeSearch s = some [c])
    (hd : c ∈ ['0', '1', '2', '3', '4', '5']) :
    parseProbe s = .ok (some (String.mk [probeLetterOfDigit c])) ∧
    probeLetterOfDigit '0' = 'A' ∧ probeLetterOfDigit '1' = 'B' ∧
    probeLetterOfDigit '2' = 'C' ∧ probeLetterOfDigit '3' = 'D' ∧
    probeLetterOfDigit '4' = 'E' ∧ probeLetterOfDigit '5' = 'F' := by
  refine ⟨?_, by decide, by decide, by decide, by decide, by decide, by decide⟩
  unfold parseProbe
  rw [h]
  fin_cases hd <;> rfl

/-- Witness for C9: a record path under `_probe3` receives tag "D", equal to
the tag a path under `_probeD` receives. -/
theorem C9_witness :
    parseProbe "/x/1234_probe3/" = .ok (some "D") ∧
    parseProbe "/x/1234_probeD/" = .ok (some "D") :=
  ⟨(C9_probe_digit_normalization "/x/1234_probe3/" '3' (by decide)
      (by decide)).1,
   by decide⟩

/-- Python truthiness of an optional string (`None` and `""` are falsy). -/
def pyT : Option String → Bool
  | none => false
  | some s => decide (s ≠ "")

/-- Last path component (`pathlib.Path(path).name`); trailing separators are
not normalized here (constructor inputs are file paths without them). -/
def lastCompAux : List Char → List Char → List Char
  | acc, [] => acc
  | acc, c :: rest =>
    if c = '/' then lastCompAux [] rest else lastCompAux (acc ++ [c]) rest

/-- Last path component of a path string. -/
def lastComp (p : String) : String := String.mk (lastCompAux [] p.data)

/-- Split a character list at its last dot into (before, after). -/
def lastDotSplit : List Char → Option (List Char × List Char)
  | [] => none
  | c :: rest =>
    match lastDotSplit rest with
    | some (b, a) => some (c :: b, a)
    | none => if c = '.' then some ([], rest) else none

/-- Embeds `pathlib.PurePath.suffix` of a file name: the final component from
its last dot, empty when the name has no dot, starts with its only dot, or
ends with a dot. -/
def pySuffix (nm : String) : String :=
  match lastDotSplit nm.data with
  | none => ""
  | some (b, a) =>
    if b = [] ∨ a = [] then "" else String.mk ('.' :: a)

/-- Embeds `str.isdecimal`: nonempty and all decimal digits.  Applied to a
suffix it is always false (the suffix carries its leading dot), matching the
source's `path.suffix.isdecimal()`. -/
def isAllDec (s : String) : Bool :=
  decide (s.data ≠ []) && s.data.all Char.isDigit

/-- Embeds the posix double-slash normalization (`if path[0] == "/" and
path[1] != "/": path = "/" + path`).  The source would raise IndexError on
the one-character path "/"; that path cannot reach this point (the file
check rejects it) and is left unchanged here. -/
def normDoubleSlash (p : String) : String :=
  match p.data with
  | '/' :: c :: rest =>
    if c = '/' then p else String.mk ('/' :: '/' :: c :: rest)
  | _ => p

/-- Prefix of the path before the first occurrence of the file name
(`path.split(self.name)[0]`). -/
def beforeName : List Char → List Char → List Char
  | [], _ => []
  | c :: rest, nm =>
    if List.isPrefixOf nm (c :: rest) then [] else c :: beforeName rest nm

/-- A checksum algorithm class: its `checksum_name`, `checksum_threshold`,
and `checksum_validate` function. -/
structure Alg where
  name : String
  threshold : Nat
  validate : String → Bool

/-- `CRC32DataValidationFile` class attributes. -/
def crc32Alg : Alg := { name := "crc32", threshold := 0, validate := validCrc32 }

/-- `SHA3_256DataValidationFile` class attributes. -/
def sha3Alg : Alg :=
  { name := "sha3_256", threshold := 0, validate := validSha256 }

/-- Filesystem/environment observations made by
`DataValidationFile.__init__`: whether resolving a symlink raises, the
result of `path.is_file()` (`none` embeds a raised exception), the result of
`os.path.getsize` (`none` embeds a raised exception), `os.path.exists`, and
the outcome of `generate_checksum` (whose self-test may raise). -/
structure InitEnv where
  symlinkErr : Bool
  pathIsFile : Option Bool
  fsSize : Option Nat
  fsEx : Bool
  gen : Except Unit String

/-- Errors `DataValidationFile.__init__` can raise. -/
inductive InitErr where
  | valueError
  | symlinkError
  | filepathIsDir
  | probeAssert
  | genError
  | checksumInvalid
deriving DecidableEq

/-- The path block of `DataValidationFile.__init__` (lines 851-924): symlink
accessibility, the file-not-directory check combining the suffix heuristic
with `path.is_file()`, the name, the double-slash normalization, and the
probe-tag parse with its assertions. -/
def mkPathInfo (path : Option String) (env : InitEnv) :
    Except InitErr (String × String × Option String) :=
  if pyT path then
    let p := path.getD ""
    if env.symlinkErr then .error .symlinkError
    else
      let nm := lastComp p
      let sfx := pySuffix nm
      let isFile0 := if isAllDec sfx then false else decide (sfx ≠ "")
      let isFile1 := if env.pathIsFile = some true then true else isFile0
      if !isFile1 then .error .filepathIsDir
      else
        let p2 := normDoubleSlash p
        match parseProbe (String.mk (beforeName p2.data nm.data)) with
        | .error _ => .error .probeAssert
        | .ok pr => .ok (p2, nm, pr)
  else .ok ("", "", none)

/-- The auto-checksum step of `DataValidationFile.__init__` (lines 943-951):
when no checksum was supplied, the size is known and nonzero, below the
class threshold, and the file exists, a checksum is generated (its self-test
may raise). -/
def genStep (alg : Alg) (checksum : Option String) (size1 : Option Nat)
    (env : InitEnv) : Except InitErr (Option String) :=
  if !(pyT checksum) &&
      (match size1 with | some n => decide (n ≠ 0) | none => false) &&
      decide (size1.getD 0 < alg.threshold) && env.fsEx then
    match env.gen with
    | .error _ => .error .genError
    | .ok c => .ok (some c)
  else .ok checksum

/-- The size resolution of `DataValidationFile.__init__` (lines 927-931):
`os.path.getsize` when a path is given and no size supplied; a raised
exception leaves the size `None`. -/
def resolveSize (path : Option String) (size : Option Nat) (env : InitEnv) :
    Option Nat :=
  if pyT path && size.isNone then env.fsSize else size

/-- Embeds `DataValidationFile.__init__` for the fields the claims concern:
requires a path or a checksum, runs the path block, resolves the size, runs
the auto-checksum step, validates any resulting checksum against the class's
format validator, and stores `checksum if checksum else None`. -/
def mkDVFile (alg : Alg) (path checksum : Option String) (size : Option Nat)
    (env : InitEnv) : Except InitErr DVFile :=
  if !(pyT path || pyT checksum) then .error .valueError
  else
    match mkPathInfo path env with
    | .error e => .error e
    | .ok (p2, nm, pr) =>
      match genStep alg checksum (resolveSize path size env) env with
      | .error e => .error e
      | .ok ck =>
        if pyT ck && !(alg.validate (ck.getD "")) then .error .checksumInvalid
        else
          .ok { path := p2, name := nm,
                checksum := if pyT ck then ck else none,
                checksumName := alg.name, size := resolveSize path size env,
                probeDir := pr }

/-- C8.  `DataValidationFile.__init__` raises synchronously when neither a
path nor a checksum is supplied; it raises synchronously when the supplied
checksum string fails the algorithm's format-validation function; and every
successfully constructed record with a checksum set carries a format-valid
checksum for its algorithm. -/
theorem C8_init_checksum_validation (alg : Alg) (path checksum : Option String)
    (size : Option Nat) (env : InitEnv) :
    (pyT path = false → pyT checksum = false →
      mkDVFile alg path checksum size env = .error .valueError) ∧
    (∀ c, checksum = some c → c ≠ "" → alg.validate c = false →
      ∃ e, mkDVFile alg path checksum size env = .error e) ∧
    (∀ f c, mkDVFile alg path checksum size env = .ok f →
      f.checksum = some c → alg.validate c = true) := by
  refine ⟨?_, ?_, ?_⟩
  · intro h1 h2
    simp [mkDVFile, h1, h2]
  · intro c hc hne hval
    subst hc
    have hckt : pyT (some c) = true := by simp [pyT, hne]
    unfold mkDVFile
    rw [if_neg (by simp [hckt])]
    cases hpi : mkPathInfo path env with
    | error e => exact ⟨e, rfl⟩
    | ok v =>
      obtain ⟨p2, nm, pr⟩ := v
      have hgs : genStep alg (some c) (resolveSize path size env) env =
          .ok (some c) := by
        unfold genStep
        rw [hckt]
        simp
      rw [hgs]
      dsimp only
      refine ⟨.checksumInvalid, ?_⟩
      rw [if_pos (by simp [hckt, hval])]
  · intro f c hok hfc
    unfold mkDVFile at hok
    by_cases h0 : (!(pyT path || pyT checksum)) = true
    · rw [if_pos h0] at hok
      exact absurd hok (by simp)
    · rw [if_neg h0] at hok
      cases hpi : mkPathInfo path env with
      | error e =>
        rw [hpi] at hok
        exact absurd hok (by simp)
      | ok v =>
        obtain ⟨p2, nm, pr⟩ := v
        rw [hpi] at hok
        dsimp only at hok
        cases hgs : genStep alg checksum (resolveSize path size env) env with
        | error e =>
          rw [hgs] at hok
          exact absurd hok (by simp)
        | ok ck =>
          rw [hgs] at hok
          dsimp only at hok
          by_cases hv : (pyT ck && !(alg.validate (ck.getD ""))) = true
          · rw [if_pos hv] at hok
            exact absurd hok (by simp)
          · rw [if_neg hv] at hok
            injection hok with h2
            subst h2
            by_cases hpt : pyT ck = true
            · rw [hpt] at hfc
              simp only [if_true] at hfc
              rw [hfc] at hv hpt
              simp only [Bool.and_eq_true, Bool.not_eq_true', not_and] at hv
              have hnf := hv hpt
              simp only [Option.getD_some] at hnf
              cases hb : alg.validate c with
              | false => exact absurd hb hnf
              | true => rfl
            · rw [Bool.not_eq_true] at hpt
              rw [hpt] at hfc
              simp at hfc

/-- Environment of the C8 witness: an accessible ordinary file. -/
def c8Env : InitEnv :=
  { symlinkErr := false, pathIsFile := some true, fsSize := some 100,
    fsEx := true, gen := .ok "AAAAAAAA" }

/-- The record the C8 witness constructs (note the source's double-slash
normalization of the leading separator). -/
def c8Ok : DVFile :=
  { path := "//sess/x.bin", name := "x.bin", checksum := some "AAAAAAAA",
    checksumName := "crc32", size := some 100, probeDir := none }

/-- Witness for C8: missing path and checksum raise; an invalid checksum
string raises; a constructed record's checksum is format-valid. -/
theorem C8_witness :
    mkDVFile crc32Alg none none none c8Env = .error .valueError ∧
    (∃ e, mkDVFile crc32Alg (some "/sess/x.bin") (some "XYZ") (some 100) c8Env
        = .error e) ∧
    crc32Alg.validate "AAAAAAAA" = true :=
  ⟨(C8_init_checksum_validation crc32Alg none none none c8Env).1 rfl rfl,
   (C8_init_checksum_validation crc32Alg (some "/sess/x.bin") (some "XYZ")
      (some 100) c8Env).2.1 "XYZ" rfl (by decide) (by decide),
   (C8_init_checksum_validation crc32Alg (some "/sess/x.bin")
      (some "AAAAAAAA") (some 100) c8Env).2.2 c8Ok "AAAAAAAA" (by decide) rfl⟩

/-- Per-attempt observations and effects inside the copy retry loop of
`DataValidationStatus.copy`: whether `shutil.copy2` raises `OSError`, whether
the destination exists after the copy, the records produced by
`exchange_if_checksum_in_db` and `generate_checksum` (for the destination,
for the subject, and for the subject's post-mismatch regeneration), and the
samefile observation for the loop's comparisons. -/
structure AttemptEnv where
  copyFails : Bool
  destExistsAfter : Bool
  exchangedDest : DVFile → DVFile
  genDest : DVFile → DVFile
  genSelf : DVFile → DVFile
  regenSelf : DVFile → DVFile
  obs : Option Bool

/-- Environment of one `DataValidationStatus.copy` call: whether the source
exists at entry, the per-attempt observations, the samefile observation for
the final remove-source comparison, and whether `unlink` raises
(`PermissionError`/`OSError`, both caught by the source). -/
structure CopyEnv where
  sourceExists : Bool
  att : Nat → AttemptEnv
  finalObs : Option Bool
  unlinkFails : Bool

/-- Arguments and pre-resolved state of one `DataValidationStatus.copy` call:
the subject record, the resolved destination record, `self.selves`, the
destination's database matches, the keyword flags, whether the destination
already exists, whether `self.file.path.stat() == final_dest.stat()`, and the
samefile observations for the pre-copy comparisons.  Destination path
resolution (session folder insertion and conflict checks) happens before this
state and is not modelled. -/
structure CopyArgs where
  file : DVFile
  destFile : DVFile
  selvesL : List DVFile
  destMatches : List DVFile
  validate : Bool
  recopy : Bool
  removeSource : Bool
  destExists0 : Bool
  statEq : Bool
  obs0 : DVFile → DVFile → Option Bool

/-- The flag rewrite at entry of `copy`: `if remove_source: validate = True`
(source lines 2469-2470). -/
def effValidate (a : CopyArgs) : Bool :=
  if a.removeSource then true else a.validate

/-- `any(s.compare(d) in <set> for s in self.selves for d in [dest_file,
*dest_matches])`. -/
def anyIn (ss ds : List DVFile) (obs : DVFile → DVFile → Option Bool)
    (ms : List Match) : Bool :=
  ss.any fun s => ds.any fun d => inSet (DVFile.compare s d (obs s d)) ms

/-- Outcome of the `do_copy` decision: the early `return` taken when the
destination exists with equal stat, nothing contradicts the copy and no
validation was requested, or the loop entry with the decided `do_copy`. -/
inductive PreOut where
  | exitEarly
  | go (doCopy : Bool)

/-- The `do_copy` decision of `DataValidationStatus.copy` (lines 2559-2578):
`recopy` forces a copy; a missing destination with a previously validated
copy skips unless contradicted by an invalid comparison; a missing
destination copies; an existing destination with equal OS stats copies only
when contradicted, returns early when not validating, and otherwise
revalidates; any other case leaves `do_copy` False. -/
def decideCopy (a : CopyArgs) (validate : Bool) : PreOut :=
  if a.recopy then .go true
  else if !a.destExists0 &&
      anyIn a.selvesL (a.destFile :: a.destMatches) a.obs0 VALID_COPIES then
    (if anyIn a.selvesL (a.destFile :: a.destMatches) a.obs0 INVALID_COPIES
     then .go true else .go false)
  else if !a.destExists0 then .go true
  else if a.statEq then
    (if anyIn a.selvesL (a.destFile :: a.destMatches) a.obs0 INVALID_COPIES
     then .go true
     else if !validate then .exitEarly
     else .go false)
  else .go false

/-- Exit of the copy-validate loop: `abortOS` embeds the `return` taken when
`shutil.copy2` raises; `finished` carries the final subject and destination
records reaching the remove-source block (by break or retry exhaustion). -/
inductive LoopOut where
  | abortOS
  | finished (file dest : DVFile)

/-- The `while (do_copy or validate) and attempts < 3` loop of
`DataValidationStatus.copy` (lines 2582-2651), with `fuel` the remaining
attempts: a failed `shutil.copy2` returns; a copy that did not materialize
retries; without validation the loop breaks after copying; otherwise
checksums are exchanged/generated for the destination and the subject, a
VALID_COPIES comparison breaks, an INVALID_COPIES comparison regenerates the
subject checksum and either breaks (now valid) or forces a recopy, and any
other comparison forces a recopy.  `recopy = True` set alongside
`do_copy = True` before `continue` is not read again and is omitted. -/
def copyLoop (env : CopyEnv) (validate : Bool) (ss : List DVFile) :
    Nat → Nat → Bool → DVFile → DVFile → LoopOut
  | 0, _, _, file, dest => .finished file dest
  | fuel + 1, attempts, doCopy, file, dest =>
    if !(doCopy || validate) then .finished file dest
    else
      if doCopy && (env.att attempts).copyFails then .abortOS
      else if doCopy && !(env.att attempts).destExistsAfter then
        copyLoop env validate ss fuel (attempts + 1) doCopy file dest
      else if !validate then .finished file dest
      else
        let dest1 := if !doCopy then (env.att attempts).exchangedDest dest
          else dest
        let dest2 := if !doCopy && dest1.checksum.isNone then
          (env.att attempts).genDest dest1 else dest1
        let dest3 := if doCopy then (env.att attempts).genDest dest2 else dest2
        let file1 :=
          if ss.any (fun s => s.checksum.isSome) then
            match ss.find? (fun s => s.cls == dest3.cls && s.checksum.isSome) with
            | some s => s
            | none => file
          else file
        let file2 := if file1.checksum.isNone then
          (env.att attempts).genSelf file1 else file1
        if inSet (DVFile.compare file2 dest3 (env.att attempts).obs)
            VALID_COPIES then .finished file2 dest3
        else if inSet (DVFile.compare file2 dest3 (env.att attempts).obs)
            INVALID_COPIES then
          if inSet (DVFile.compare ((env.att attempts).regenSelf file2) dest3
              (env.att attempts).obs) VALID_COPIES then
            .finished ((env.att attempts).regenSelf file2) dest3
          else
            copyLoop env validate ss fuel (attempts + 1) true
              ((env.att attempts).regenSelf file2) dest3
        else copyLoop env validate ss fuel (attempts + 1) true file2 dest3

/-- Result of one `DataValidationStatus.copy` call: final subject and
destination records, whether an early `return` was taken, whether `unlink`
was attempted, and whether the source file ended up deleted. -/
structure CopyResult where
  finalFile : DVFile
  finalDest : DVFile
  earlyExit : Bool
  unlinkAttempted : Bool
  sourceDeleted : Bool

/-- Embeds `DataValidationStatus.copy`: missing source aborts; `remove_source`
forces `validate`; a probe-tag mismatch between source and destination
aborts; then the `do_copy` decision, the retry loop, and the remove-source
block, which unlinks only when `remove_source and validate` hold and the
final source-versus-destination comparison is in `VALID_COPIES`; a raising
`unlink` is caught and leaves the source in place. -/
def copyModel (a : CopyArgs) (env : CopyEnv) : CopyResult :=
  if !env.sourceExists then
    { finalFile := a.file, finalDest := a.destFile, earlyExit := true,
      unlinkAttempted := false, sourceDeleted := false }
  else if !(a.file.probeDir == a.destFile.probeDir) then
    { finalFile := a.file, finalDest := a.destFile, earlyExit := true,
      unlinkAttempted := false, sourceDeleted := false }
  else
    match decideCopy a (effValidate a) with
    | .exitEarly =>
      { finalFile := a.file, finalDest := a.destFile, earlyExit := true,
        unlinkAttempted := false, sourceDeleted := false }
    | .go dc =>
      match copyLoop env (effValidate a) a.selvesL 3 0 dc a.file a.destFile with
      | .abortOS =>
        { finalFile := a.file, finalDest := a.destFile, earlyExit := true,
          unlinkAttempted := false, sourceDeleted := false }
      | .finished f d =>
        if a.removeSource && effValidate a &&
            inSet (DVFile.compare f d env.finalObs) VALID_COPIES then
          if env.unlinkFails then
            { finalFile := f, finalDest := d, earlyExit := false,
              unlinkAttempted := true, sourceDeleted := false }
          else
            { finalFile := f, finalDest := d, earlyExit := false,
              unlinkAttempted := true, sourceDeleted := true }
        else
          { finalFile := f, finalDest := d, earlyExit := false,
            unlinkAttempted := false, sourceDeleted := false }

/-- C7.  In `DataValidationStatus.copy`, `remove_source=True` forces
`validate=True` (calls with either value of `validate` behave identically);
the source is deleted only when `remove_source` was requested and the final
source-versus-destination classification is in VALID_COPIES; and a raising
`unlink` is caught, leaving the source on disk. -/
theorem C7_remove_source_safety (a : CopyArgs) (env : CopyEnv) :
    (a.removeSource = true →
      copyModel a env = copyModel { a with validate := true } env) ∧
    ((copyModel a env).sourceDeleted = true →
      a.removeSource = true ∧
      inSet (DVFile.compare (copyModel a env).finalFile
        (copyModel a env).finalDest env.finalObs) VALID_COPIES = true ∧
      env.unlinkFails = false) ∧
    (env.unlinkFails = true → (copyModel a env).sourceDeleted = false) := by
  have hmain : (copyModel a env).sourceDeleted = true →
      a.removeSource = true ∧
      inSet (DVFile.compare (copyModel a env).finalFile
        (copyModel a env).finalDest env.finalObs) VALID_COPIES = true ∧
      env.unlinkFails = false := by
    intro hdel
    unfold copyModel at hdel ⊢
    by_cases hsrc : (!env.sourceExists) = true
    · rw [if_pos hsrc] at hdel
      simp at hdel
    · rw [if_neg hsrc] at hdel ⊢
      by_cases hpr : (!(a.file.probeDir == a.destFile.probeDir)) = true
      · rw [if_pos hpr] at hdel
        simp at hdel
      · rw [if_neg hpr] at hdel ⊢
        cases hdc : decideCopy a (effValidate a) with
        | exitEarly =>
          rw [hdc] at hdel
          simp at hdel
        | go dc =>
          rw [hdc] at hdel
          dsimp only at hdel ⊢
          cases hlp : copyLoop env (effValidate a) a.selvesL 3 0 dc a.file
              a.destFile with
          | abortOS =>
            rw [hlp] at hdel
            simp at hdel
          | finished f d =>
            rw [hlp] at hdel
            dsimp only at hdel ⊢
            by_cases hrm : (a.removeSource && effValidate a &&
                inSet (DVFile.compare f d env.finalObs) VALID_COPIES) = true
            · rw [if_pos hrm] at hdel ⊢
              by_cases huf : env.unlinkFails = true
              · rw [if_pos huf] at hdel
                simp at hdel
              · rw [if_neg huf] at hdel ⊢
                simp only [Bool.and_eq_true] at hrm
                exact ⟨hrm.1.1, hrm.2, Bool.not_eq_true _ |>.mp huf⟩
            · rw [if_neg hrm] at hdel
              simp at hdel
  refine ⟨?_, hmain, ?_⟩
  · intro h
    unfold copyModel effValidate
    dsimp only
    rw [h]
    simp
    exact rfl
  · intro huf
    cases hd : (copyModel a env).sourceDeleted with
    | false => rfl
    | true =>
      have h2 := (hmain hd).2.2
      rw [h2] at huf
      exact absurd huf (by simp)

/-- Subject record of the C7 witness. -/
def c7File : DVFile :=
  { path := "/acq/sess/x.bin", name := "x.bin", checksum := some "AAAAAAAA",
    checksumName := "crc32", size := some 100, probeDir := none,
    cls := "crc32" }

/-- Destination record of the C7 witness. -/
def c7Dest : DVFile :=
  { path := "/npexp/sess/x.bin", name := "x.bin", checksum := some "AAAAAAAA",
    checksumName := "crc32", size := some 100, probeDir := none,
    cls := "crc32" }

/-- Arguments of the C7 witness: remove_source requested, destination already
present and stat-equal. -/
def c7Args : CopyArgs :=
  { file := c7File, destFile := c7Dest, selvesL := [c7File],
    destMatches := [], validate := false, recopy := false,
    removeSource := true, destExists0 := true, statEq := true,
    obs0 := fun _ _ => some false }

/-- Environment of the C7 witness: everything succeeds. -/
def c7Env : CopyEnv :=
  { sourceExists := true,
    att := fun _ =>
      { copyFails := false, destExistsAfter := true, exchangedDest := id,
        genDest := id, genSelf := id, regenSelf := id, obs := some false },
    finalObs := some false, unlinkFails := false }

/-- Witness for C7: a concrete successful copy-validate-delete run, with the
theorem's guarantees instantiated there. -/
theorem C7_witness :
    (copyModel c7Args c7Env).sourceDeleted = true ∧
    c7Args.removeSource = true ∧
    inSet (DVFile.compare (copyModel c7Args c7Env).finalFile
      (copyModel c7Args c7Env).finalDest c7Env.finalObs) VALID_COPIES = true :=
  ⟨rfl, ((C7_remove_source_safety c7Args c7Env).2.1 rfl).1,
    ((C7_remove_source_safety c7Args c7Env).2.1 rfl).2.1⟩
